import Mathlib

/-!
Verification of the item-tree storage and mutation engine of the
file-manager backend (`src/api/routes.js`).

The store `db.items` is modelled as a `List Item` in insertion order
(`push` appends at the end, `splice(index, 1)` is `eraseIdx`,
`find`/`findIndex` scan from the front).  Request bodies are modelled
with `Option` for absent fields (`undefined`) and `Option String` for
nullable parent references (`parentId || null`).  Timestamps
(`new Date().toISOString()`) are opaque strings passed in as `now`;
generated uuids are passed in as explicit fresh-id arguments.
File-system side effects (multer temp files, `fs.unlinkSync`,
`saveDatabase`) are outside the tree semantics and are not modelled;
the in-memory `db.items` array is the state.
-/

namespace FileTree

/-- An element of `db.items` as created by `routes.js`.  Folder items carry
`none` in the file-only fields (`filePath`, `size`, `mimeType`). -/
structure Item where
  id : String
  parentId : Option String
  name : String
  folder : Bool
  filePath : Option String := none
  size : Option Nat := none
  mimeType : Option String := none
  creation : String := ""
  modification : String := ""
deriving Repr, DecidableEq

/-- One entry of `req.files` (multer): `originalname`, generated `filename`,
`size` and `mimetype`. -/
structure FileMeta where
  originalname : String
  filename : String
  size : Nat
  mimetype : String
deriving Repr, DecidableEq

/-- One element of the `errors` array built by the upload branch of
`POST /api/items`. -/
structure UploadError where
  filename : String
  error : String
  message : String
deriving Repr, DecidableEq

/-- Whitespace as stripped by JS `String.prototype.trim` (ASCII subset). -/
def isWs (c : Char) : Bool :=
  c == ' ' || c == '\t' || c == '\n' || c == '\r'

/-- Executable model of JS `.trim()`: drop leading and trailing whitespace. -/
def strTrim (s : String) : String :=
  ⟨((s.data.dropWhile isWs).reverse.dropWhile isWs).reverse⟩

/-- JS `db.items.find(i => i.id === x)`: first item with the given id. -/
def findById (store : List Item) (x : String) : Option Item :=
  store.find? (fun i => i.id == x)

/-- JS `db.items.findIndex(p)` followed by `db.items[index]`: index and
value of the first matching item. -/
def findWithIdx (p : Item → Bool) : List Item → Option (Nat × Item)
  | [] => none
  | i :: rest =>
    if p i then some (0, i)
    else (findWithIdx p rest).map (fun r => (r.fst + 1, r.snd))

/-- In-place mutation of the first item matching `p` (JS `find` returns a
reference into `db.items`; assigning its fields mutates that element). -/
def updateFirst (p : Item → Bool) (f : Item → Item) : List Item → List Item
  | [] => []
  | i :: rest => if p i then f i :: rest else i :: updateFirst p f rest

/-- Predicate of the upload-branch duplicate check (`routes.js` lines 57-62):
an existing sibling *file* with the same name under the same parent. -/
def isDupFile (pid : Option String) (nm : String) (it : Item) : Bool :=
  it.parentId == pid && it.name == nm && it.folder == false

/-- Predicate of the folder-branch duplicate check (`routes.js` lines 128-133):
an existing sibling *folder* with the same name under the same parent. -/
def isDupFolder (pid : Option String) (nm : String) (it : Item) : Bool :=
  it.parentId == pid && it.name == nm && it.folder == true

/-- Predicate of the PATCH duplicate check (`routes.js` lines 285-290):
any sibling with the same name, excluding the item itself; the kind
(`folder`) is not inspected. -/
def dupPred (pid : Option String) (nm : String) (selfId : String) (i : Item) : Bool :=
  i.parentId == pid && i.name == nm && !(i.id == selfId)

/-- New file item as built by the upload branch (`routes.js` lines 73-83). -/
def mkFileItem (newId : String) (pid : Option String) (f : FileMeta) (now : String) : Item :=
  { id := newId, parentId := pid, name := f.originalname, folder := false,
    filePath := some f.filename, size := some f.size, mimeType := some f.mimetype,
    creation := now, modification := now }

/-- New folder item as built by the folder branch (`routes.js` lines 142-149)
when the `folder` field coerces to `true`; the stored name is trimmed. -/
def mkFolderItem (newId : String) (pid : Option String) (n : String) (now : String) : Item :=
  { id := newId, parentId := pid, name := strTrim n, folder := true,
    creation := now, modification := now }

/-! ## POST /api/items — upload branch -/

/-- Accumulated state of the `req.files.forEach` loop: the store plus the
`newItems` and `errors` arrays, in push order. -/
structure BatchState where
  store : List Item
  successful : List Item
  failed : List UploadError
deriving Repr, DecidableEq

/-- The `req.files.forEach` loop (`routes.js` lines 55-94): for each file,
the duplicate check runs against the current `db.items` (so it also sees
files pushed earlier in the same batch); a duplicate is recorded as a
per-file error, otherwise the new item is pushed onto the store. -/
def uploadFilesAux (pid : Option String) (now : String) :
    List (FileMeta × String) → List Item → BatchState
  | [], store => ⟨store, [], []⟩
  | (f, fid) :: rest, store =>
    if store.any (isDupFile pid f.originalname) then
      let r := uploadFilesAux pid now rest store
      ⟨r.store, r.successful,
        ⟨f.originalname, "DUPLICATE",
          "A file with this name already exists in this location"⟩ :: r.failed⟩
    else
      let ni := mkFileItem fid pid f now
      let r := uploadFilesAux pid now rest (store ++ [ni])
      ⟨r.store, ni :: r.successful, r.failed⟩

/-- Aggregate response of the upload branch (`routes.js` lines 101-118):
`400 UPLOAD_FAILED` when there are errors and nothing was created,
`207 PARTIAL_SUCCESS` when there are errors and something was created,
plain `201` otherwise. -/
inductive UploadOutcome where
  | uploadFailed (errors : List UploadError)
  | multiStatus (successful : List Item) (failed : List UploadError)
  | createdAll (items : List Item)
deriving Repr, DecidableEq

/-- The whole `req.files.forEach` loop over a batch, pairing each file with
its generated uuid. -/
def uploadBatch (store : List Item) (pid : Option String) (files : List FileMeta)
    (ids : List String) (now : String) : BatchState :=
  uploadFilesAux pid now (files.zip ids) store

/-- Upload branch of `POST /api/items` on a non-empty `req.files`, with the
generated uuids passed in as `ids`. -/
def uploadFiles (store : List Item) (pid : Option String) (files : List FileMeta)
    (ids : List String) (now : String) : UploadOutcome × List Item :=
  let st := uploadBatch store pid files ids now
  if st.failed.length ≠ 0 ∧ st.successful.length = 0 then
    (.uploadFailed st.failed, st.store)
  else if st.failed.length ≠ 0 then
    (.multiStatus st.successful st.failed, st.store)
  else
    (.createdAll st.successful, st.store)

/-! ## POST /api/items — folder branch -/

/-- Response of the non-upload branch of `POST /api/items`. -/
inductive CreateOutcome where
  | invalidInput
  | duplicateFolder
  | created (item : Item)
deriving Repr, DecidableEq

/-- Non-upload branch of `POST /api/items` (`routes.js` lines 121-157).
`name`/`folderField` are `none` when the body field is `undefined`;
`folderField` carries the JS coercion `folder === 'true' || folder === true`.
The duplicate check compares the *raw* request name, while the inserted
item stores `name.trim()`. -/
def createEntry (store : List Item) (name : Option String) (folderField : Option Bool)
    (parentId : Option String) (newId now : String) : CreateOutcome × List Item :=
  match name, folderField with
  | some n, some fb =>
    if n == "" then (.invalidInput, store)
    else if store.any (isDupFolder parentId n) then (.duplicateFolder, store)
    else
      let ni : Item := { id := newId, parentId := parentId, name := strTrim n, folder := fb,
                         creation := now, modification := now }
      (.created ni, store ++ [ni])
  | _, _ => (.invalidInput, store)

/-! ## DELETE /api/items/:itemId -/

/-- Response of `DELETE /api/items/:itemId`. -/
inductive DeleteOutcome where
  | notFound
  | folderNotEmpty
  | ok
deriving Repr, DecidableEq

/-- `DELETE /api/items/:itemId` (`routes.js` lines 204-242): `404` when the
id is absent, `400 FOLDER_NOT_EMPTY` when the item is a folder with at
least one child, otherwise `splice(index, 1)`. -/
def deleteItem (store : List Item) (itemId : String) : DeleteOutcome × List Item :=
  match findWithIdx (fun i => i.id == itemId) store with
  | none => (.notFound, store)
  | some (idx, item) =>
    if item.folder && store.any (fun i => i.parentId == some item.id) then
      (.folderNotEmpty, store)
    else
      (.ok, store.eraseIdx idx)

/-! ## PATCH /api/items/:itemId -/

/-- Response of `PATCH /api/items/:itemId`. -/
inductive PatchOutcome where
  | notFound
  | invalidParent
  | parentNotFound
  | invalidName
  | duplicateName
  | ok (item : Item)
deriving Repr, DecidableEq

/-- Assignment `item.parentId = req.body.parentId` on the aliased store. -/
def setParentFirst (store : List Item) (itemId : String) (pid : Option String) : List Item :=
  updateFirst (fun i => i.id == itemId) (fun i => { i with parentId := pid }) store

/-- Assignment `item.name = req.body.name` on the aliased store. -/
def renameFirst (store : List Item) (itemId : String) (nm : String) : List Item :=
  updateFirst (fun i => i.id == itemId) (fun i => { i with name := nm }) store

/-- Assignment `item.modification = now` on the aliased store. -/
def touchFirst (store : List Item) (itemId : String) (now : String) : List Item :=
  updateFirst (fun i => i.id == itemId) (fun i => { i with modification := now }) store

/-- Final segment of the PATCH handler (`routes.js` lines 302-305): stamp
`modification` and return the (mutated) item. -/
def finishPatch (store : List Item) (item : Item) (now : String) : PatchOutcome × List Item :=
  (.ok { item with modification := now }, touchFirst store item.id now)

/-- Name segment of the PATCH handler (`routes.js` lines 277-300), running
on the store as already mutated by the parent segment.  The sibling
check uses the item's *current* (possibly just moved) `parentId`, the raw
request name, and excludes the item itself; it does not inspect `folder`. -/
def renamePhase (store : List Item) (item : Item) (newName : Option String)
    (now : String) : PatchOutcome × List Item :=
  match newName with
  | none => finishPatch store item now
  | some nm =>
    if strTrim nm == "" then (.invalidName, store)
    else if store.any (dupPred item.parentId nm item.id) then (.duplicateName, store)
    else finishPatch (renameFirst store item.id nm) { item with name := nm } now

/-- `PATCH /api/items/:itemId` (`routes.js` lines 247-312).  `newParentId`
is `none` when `req.body.parentId === undefined`, `some none` for an
explicit `null`.  The only parent validations are `parentId === item.id`
and, for a non-null parent, bare existence of *any* item with that id;
a `parentId` accepted here is applied before the name segment runs. -/
def moveOrRename (store : List Item) (itemId : String)
    (newParentId : Option (Option String)) (newName : Option String)
    (now : String) : PatchOutcome × List Item :=
  match findById store itemId with
  | none => (.notFound, store)
  | some item0 =>
    match newParentId with
    | none => renamePhase store item0 newName now
    | some none =>
      renamePhase (setParentFirst store itemId none)
        { item0 with parentId := none } newName now
    | some (some p) =>
      if p == itemId then (.invalidParent, store)
      else if store.any (fun i => i.id == p) then
        renamePhase (setParentFirst store itemId (some p))
          { item0 with parentId := some p } newName now
      else (.parentNotFound, store)

/-! ## GET /api/items/:itemId/path -/

/-- The `while (current)` walk of the path handler (`routes.js` lines
329-334) with explicit fuel; the JS loop has no bound, so `none` at every
fuel models non-termination.  Each iteration unshifts the current item
(hence the `++ [cur]` tail position) and follows `parentId` via
`db.items.find`; a dangling parent reference ends the walk like `null`. -/
def pathWalk (store : List Item) : Nat → Item → Option (List Item)
  | 0, _ => none
  | fuel + 1, cur =>
    match cur.parentId with
    | none => some [cur]
    | some pid =>
      match findById store pid with
      | none => some [cur]
      | some p => (pathWalk store fuel p).map (fun l => l ++ [cur])

/-- The same chain walked top-down from the item: `[X, parent, ..., root]`.
This is the literal "walk `parentId` upward" sequence of the spec. -/
def upWalk (store : List Item) : Nat → Item → Option (List Item)
  | 0, _ => none
  | fuel + 1, cur =>
    match cur.parentId with
    | none => some [cur]
    | some pid =>
      match findById store pid with
      | none => some [cur]
      | some p => (upWalk store fuel p).map (fun l => cur :: l)

/-- Response of `GET /api/items/:itemId/path`. -/
inductive PathOutcome where
  | notFound
  | ok (items : List Item)
deriving Repr, DecidableEq

/-- `GET /api/items/:itemId/path` (`routes.js` lines 317-343) at a given
fuel; the outer `none` means the handler's loop has not finished within
that many iterations. -/
def getPathFuel (store : List Item) (itemId : String) (fuel : Nat) :
    Option PathOutcome :=
  match findById store itemId with
  | none => some .notFound
  | some it => (pathWalk store fuel it).map .ok

/-! ## Sibling-uniqueness invariant -/

/-- Two items conflict when they are same-kind siblings with equal names. -/
def conflict (a b : Item) : Bool :=
  a.parentId == b.parentId && a.name == b.name && a.folder == b.folder

/-- The spec's sibling-uniqueness invariant: no two (distinct positions of)
items of the same kind share a name under the same parent. -/
def uniqueSiblingsB : List Item → Bool
  | [] => true
  | a :: rest => rest.all (fun b => !(conflict a b)) && uniqueSiblingsB rest

/-! ## Concrete stores used by the counterexamples and bug exhibits -/

/-- Root folder `A`. -/
def fldA : Item :=
  { id := "A", parentId := none, name := "A", folder := true,
    creation := "t0", modification := "t0" }

/-- File `x.txt` at the root. -/
def fileRootX : Item :=
  { id := "f1", parentId := none, name := "x.txt", folder := false,
    filePath := some "b1", size := some 1, mimeType := some "text/plain",
    creation := "t0", modification := "t0" }

/-- File `x.txt` inside folder `A`. -/
def fileInAX : Item :=
  { id := "f2", parentId := some "A", name := "x.txt", folder := false,
    filePath := some "b2", size := some 2, mimeType := some "text/plain",
    creation := "t0", modification := "t0" }

/-- Store with two same-named files under different parents: it satisfies
sibling uniqueness. -/
def dupStart : List Item := [fldA, fileRootX, fileInAX]

/-- `fileRootX` after `PATCH { parentId: "A" }`. -/
def movedF1 : Item :=
  { id := "f1", parentId := some "A", name := "x.txt", folder := false,
    filePath := some "b1", size := some 1, mimeType := some "text/plain",
    creation := "t0", modification := "t1" }

/-- `dupStart` after moving the root `x.txt` into `A`: two sibling files
named `x.txt` under `A`. -/
def dupBroken : List Item := [fldA, movedF1, fileInAX]

/-- Folder `B` nested inside folder `A`. -/
def fldB : Item :=
  { id := "B", parentId := some "A", name := "B", folder := true,
    creation := "t0", modification := "t0" }

/-- Two-folder chain `A ← B`, acyclic. -/
def cycStart : List Item := [fldA, fldB]

/-- Folder `A` after `PATCH { parentId: "B" }`: its parent is its own child. -/
def fldACyc : Item :=
  { id := "A", parentId := some "B", name := "A", folder := true,
    creation := "t0", modification := "t1" }

/-- The store produced by moving `A` under its descendant `B`: the parent
graph is the two-cycle `A → B → A`. -/
def cycStore : List Item := [fldACyc, fldB]

/-- On the cyclic store, the path walk starting from either item of the
cycle finishes at no fuel whatsoever: the handler's `while` loop never
terminates. -/
theorem cyc_pathWalk_none :
    ∀ fuel : Nat, pathWalk cycStore fuel fldACyc = none ∧
      pathWalk cycStore fuel fldB = none := by
  intro fuel
  induction fuel with
  | zero => exact ⟨rfl, rfl⟩
  | succ n ih =>
    refine ⟨?_, ?_⟩
    · show (pathWalk cycStore n fldB).map _ = none
      rw [ih.2]; rfl
    · show (pathWalk cycStore n fldACyc).map _ = none
      rw [ih.1]; rfl

/-- C1: sibling-uniqueness is not preserved: from a store satisfying the
invariant (a root file `x.txt`, a folder `A`, and a file `x.txt` inside
`A`), the MoveOrRename call that supplies only `newParentId = "A"` for the
root file succeeds and leaves two sibling files named `x.txt` under `A`,
so the reachable-state invariant claimed by the spec fails. -/
theorem move_breaks_sibling_uniqueness :
    uniqueSiblingsB dupStart = true
    ∧ moveOrRename dupStart "f1" (some (some "A")) none "t1" = (.ok movedF1, dupBroken)
    ∧ uniqueSiblingsB dupBroken = false := by
  refine ⟨by decide, by decide, by decide⟩

/-- C2: acyclicity of MoveOrRename fails: with folder `B` a child of folder
`A`, moving `A` under its descendant `B` is accepted (the handler checks
only `parentId === item.id` and bare existence of the new parent, not the
ancestor chain), and in the resulting store the parent graph has the cycle
`A → B → A`: the path walk from the moved item completes at no fuel. -/
theorem move_under_descendant_creates_cycle :
    moveOrRename cycStart "A" (some (some "B")) none "t1" = (.ok fldACyc, cycStore)
    ∧ ∀ fuel : Nat, pathWalk cycStore fuel fldACyc = none := by
  exact ⟨by decide, fun fuel => (cyc_pathWalk_none fuel).1⟩

/-- C3: GetPath does not detect cycles: on the cyclic store reachable via
the C2 move, the handler finds the item (no 404) but its `while` loop
never reaches a null parent — the fueled model of the loop returns no
result at any bound, so the handler loops forever instead of reporting an
integrity error within the item-count bound. -/
theorem getPath_on_cycle_never_terminates :
    findById cycStore "A" = some fldACyc
    ∧ ∀ fuel : Nat, getPathFuel cycStore "A" fuel = none := by
  have h : findById cycStore "A" = some fldACyc := by decide
  refine ⟨h, fun fuel => ?_⟩
  simp [getPathFuel, h, (cyc_pathWalk_none fuel).1]

/-- C4: DeleteItem semantics, stated over three independent scenarios: an
absent id yields NotFound with the store untouched; a folder with at least
one child yields FolderNotEmpty with the store untouched; an item that is
not a folder with children (a file, or a folder whose children are all
gone — e.g. a repeat call after deleting them) is removed at its index. -/
theorem deleteItem_semantics
    (sA : List Item) (idA : String)
    (hA : findWithIdx (fun i => i.id == idA) sA = none)
    (sB : List Item) (idB : String) (iB : Nat) (itB : Item)
    (hB : findWithIdx (fun i => i.id == idB) sB = some (iB, itB))
    (hBf : itB.folder = true)
    (hBc : sB.any (fun i => i.parentId == some itB.id) = true)
    (sC : List Item) (idC : String) (iC : Nat) (itC : Item)
    (hC : findWithIdx (fun i => i.id == idC) sC = some (iC, itC))
    (hCok : itC.folder = true → sC.any (fun i => i.parentId == some itC.id) = false) :
    deleteItem sA idA = (.notFound, sA)
    ∧ deleteItem sB idB = (.folderNotEmpty, sB)
    ∧ deleteItem sC idC = (.ok, sC.eraseIdx iC) := by
  refine ⟨?_, ?_, ?_⟩
  · simp [deleteItem, hA]
  · simp [deleteItem, hB, hBf, hBc]
  · have hcond : (itC.folder && sC.any (fun i => i.parentId == some itC.id)) = false := by
      cases hf : itC.folder with
      | false => rfl
      | true => simp [hCok hf]
    simp [deleteItem, hC, hcond]

/-- Witness for C4: on concrete stores, deleting an absent id is NotFound,
deleting folder `A` while `B` is inside it is FolderNotEmpty, and once `B`
is gone the repeat delete of `A` succeeds. -/
theorem deleteItem_semantics_witness :
    deleteItem [] "z" = (.notFound, [])
    ∧ deleteItem [fldA, fldB] "A" = (.folderNotEmpty, [fldA, fldB])
    ∧ deleteItem [fldA] "A" = (.ok, ([fldA] : List Item).eraseIdx 0) :=
  deleteItem_semantics [] "z" (by decide) [fldA, fldB] "A" 0 fldA (by decide)
    (by decide) (by decide) [fldA] "A" 0 fldA (by decide) (by decide)

/-- Every error pushed by the upload loop carries the code `DUPLICATE`. -/
theorem uploadFilesAux_failed_dup (pid : Option String) (now : String) :
    ∀ (ps : List (FileMeta × String)) (store : List Item),
      ∀ e ∈ (uploadFilesAux pid now ps store).failed, e.error = "DUPLICATE" := by
  intro ps
  induction ps with
  | nil => intro store e he; simp [uploadFilesAux] at he
  | cons p rest ih =>
    intro store e he
    obtain ⟨f, fid⟩ := p
    by_cases h : store.any (isDupFile pid f.originalname)
    · simp [uploadFilesAux, h] at he
      rcases he with he | he
      · rw [he]
      · exact ih store e he
    · simp [uploadFilesAux, h] at he
      exact ih (store ++ [mkFileItem fid pid f now]) e he

/-- The upload loop produces exactly one outcome (created item or error)
per file: the two output lists partition the batch. -/
theorem uploadFilesAux_count (pid : Option String) (now : String) :
    ∀ (ps : List (FileMeta × String)) (store : List Item),
      (uploadFilesAux pid now ps store).successful.length
        + (uploadFilesAux pid now ps store).failed.length = ps.length := by
  intro ps
  induction ps with
  | nil => intro store; rfl
  | cons p rest ih =>
    intro store
    obtain ⟨f, fid⟩ := p
    by_cases h : store.any (isDupFile pid f.originalname)
    · have := ih store
      simp [uploadFilesAux, h]
      omega
    · have := ih (store ++ [mkFileItem fid pid f now])
      simp [uploadFilesAux, h]
      omega

/-- C5: batch outcome trichotomy of the upload branch: every file yields
exactly one of a created item or a per-file error (all of which carry the
code `DUPLICATE`); the response is the plain created list exactly when all
N files were created, the batch failure exactly when zero were created,
and the distinct partial-success shape (listing both created items and
errors) exactly when some but not all were created; and a batch of 3
distinctly-named files of which exactly the first collides with an
existing sibling file yields exactly 2 created items and 1 Duplicate
error, reported as partial success. -/
theorem upload_batch_trichotomy (store : List Item) (pid : Option String)
    (files : List FileMeta) (ids : List String) (now : String)
    (hne : files ≠ []) (hlen : ids.length = files.length) :
    (uploadBatch store pid files ids now).successful.length
      + (uploadBatch store pid files ids now).failed.length = files.length
    ∧ ((uploadFiles store pid files ids now).fst
        = .createdAll (uploadBatch store pid files ids now).successful
        ↔ (uploadBatch store pid files ids now).successful.length = files.length)
    ∧ ((uploadFiles store pid files ids now).fst
        = .uploadFailed (uploadBatch store pid files ids now).failed
        ↔ (uploadBatch store pid files ids now).successful.length = 0)
    ∧ ((uploadFiles store pid files ids now).fst
        = .multiStatus (uploadBatch store pid files ids now).successful
            (uploadBatch store pid files ids now).failed
        ↔ (0 < (uploadBatch store pid files ids now).successful.length
            ∧ (uploadBatch store pid files ids now).successful.length < files.length))
    ∧ (∀ e ∈ (uploadBatch store pid files ids now).failed, e.error = "DUPLICATE")
    ∧ (∀ f1 f2 f3 : FileMeta, ∀ i1 i2 i3 : String,
        files = [f1, f2, f3] → ids = [i1, i2, i3] →
        store.any (isDupFile pid f1.originalname) = true →
        store.any (isDupFile pid f2.originalname) = false →
        store.any (isDupFile pid f3.originalname) = false →
        f1.originalname ≠ f2.originalname → f1.originalname ≠ f3.originalname →
        f2.originalname ≠ f3.originalname →
        (uploadBatch store pid files ids now).successful.length = 2
        ∧ (uploadBatch store pid files ids now).failed
            = [⟨f1.originalname, "DUPLICATE",
                "A file with this name already exists in this location"⟩]
        ∧ (uploadFiles store pid files ids now).fst
            = .multiStatus (uploadBatch store pid files ids now).successful
                (uploadBatch store pid files ids now).failed) := by
  have hsum : (uploadBatch store pid files ids now).successful.length
      + (uploadBatch store pid files ids now).failed.length = files.length := by
    have h := uploadFilesAux_count pid now (files.zip ids) store
    simpa [uploadBatch, List.length_zip, hlen] using h
  have hN : files.length ≠ 0 := by
    intro h0
    exact hne (List.length_eq_zero.mp h0)
  refine ⟨hsum, ?_, ?_, ?_, ?_, ?_⟩
  · by_cases hf : (uploadBatch store pid files ids now).failed.length = 0 <;>
      by_cases hs : (uploadBatch store pid files ids now).successful.length = 0 <;>
      simp [uploadFiles, hf, hs] <;> omega
  · by_cases hf : (uploadBatch store pid files ids now).failed.length = 0 <;>
      by_cases hs : (uploadBatch store pid files ids now).successful.length = 0 <;>
      simp [uploadFiles, hf, hs] <;> omega
  · by_cases hf : (uploadBatch store pid files ids now).failed.length = 0 <;>
      by_cases hs : (uploadBatch store pid files ids now).successful.length = 0 <;>
      simp [uploadFiles, hf, hs] <;> omega
  · exact uploadFilesAux_failed_dup pid now (files.zip ids) store
  · intro f1 f2 f3 i1 i2 i3 hfs hids hd1 hd2 hd3 h12 h13 h23
    subst hfs
    subst hids
    have e3 : ((store ++ [mkFileItem i2 pid f2 now]).any
        (isDupFile pid f3.originalname)) = false := by
      simp [List.any_append, hd3, isDupFile, mkFileItem, h23]
    have hb : uploadBatch store pid [f1, f2, f3] [i1, i2, i3] now
        = ⟨store ++ [mkFileItem i2 pid f2 now] ++ [mkFileItem i3 pid f3 now],
           [mkFileItem i2 pid f2 now, mkFileItem i3 pid f3 now],
           [⟨f1.originalname, "DUPLICATE",
             "A file with this name already exists in this location"⟩]⟩ := by
      simp [uploadBatch, uploadFilesAux, hd1, hd2, e3]
    refine ⟨?_, ?_, ?_⟩
    · simp [hb]
    · simp [hb]
    · simp [uploadFiles, hb]

/-- Concrete file payloads for the upload witnesses. -/
def fX : FileMeta := ⟨"x.txt", "u1", 3, "text/plain"⟩

/-- Second concrete file payload. -/
def fY : FileMeta := ⟨"y.txt", "u2", 4, "text/plain"⟩

/-- Third concrete file payload. -/
def fZ : FileMeta := ⟨"z.txt", "u3", 5, "text/plain"⟩

/-- Witness for C5: uploading ["x.txt","y.txt","z.txt"] under root while a
root file `x.txt` already exists creates exactly 2 items and reports 1
Duplicate error as partial success. -/
theorem upload_batch_trichotomy_witness :
    (uploadBatch [fileRootX] none [fX, fY, fZ] ["n1", "n2", "n3"] "t1").successful.length = 2
    ∧ (uploadBatch [fileRootX] none [fX, fY, fZ] ["n1", "n2", "n3"] "t1").failed
        = [⟨"x.txt", "DUPLICATE", "A file with this name already exists in this location"⟩]
    ∧ (uploadFiles [fileRootX] none [fX, fY, fZ] ["n1", "n2", "n3"] "t1").fst
        = .multiStatus (uploadBatch [fileRootX] none [fX, fY, fZ] ["n1", "n2", "n3"] "t1").successful
            (uploadBatch [fileRootX] none [fX, fY, fZ] ["n1", "n2", "n3"] "t1").failed :=
  (upload_batch_trichotomy [fileRootX] none [fX, fY, fZ] ["n1", "n2", "n3"] "t1"
      (by decide) (by decide)).2.2.2.2.2 fX fY fZ "n1" "n2" "n3" rfl rfl
    (by decide) (by decide) (by decide) (by decide) (by decide) (by decide)

/-- C10: the per-file duplicate check reads the store as already extended
by earlier files of the same batch: a batch of two same-named files under
a parent with no pre-existing sibling of that name creates exactly the
first file and reports the second as a Duplicate error, and the response
is the partial-success shape. -/
theorem upload_intra_batch_duplicate (store : List Item) (pid : Option String)
    (f1 f2 : FileMeta) (i1 i2 : String) (now : String)
    (hname : f2.originalname = f1.originalname)
    (hnodup : store.any (isDupFile pid f1.originalname) = false) :
    uploadBatch store pid [f1, f2] [i1, i2] now
      = ⟨store ++ [mkFileItem i1 pid f1 now], [mkFileItem i1 pid f1 now],
         [⟨f2.originalname, "DUPLICATE",
           "A file with this name already exists in this location"⟩]⟩
    ∧ (uploadFiles store pid [f1, f2] [i1, i2] now).fst
        = .multiStatus [mkFileItem i1 pid f1 now]
            [⟨f2.originalname, "DUPLICATE",
              "A file with this name already exists in this location"⟩] := by
  have e2 : ((store ++ [mkFileItem i1 pid f1 now]).any
      (isDupFile pid f2.originalname)) = true := by
    simp [List.any_append, hname, hnodup, isDupFile, mkFileItem]
  have hb : uploadBatch store pid [f1, f2] [i1, i2] now
      = ⟨store ++ [mkFileItem i1 pid f1 now], [mkFileItem i1 pid f1 now],
         [⟨f2.originalname, "DUPLICATE",
           "A file with this name already exists in this location"⟩]⟩ := by
    simp [uploadBatch, uploadFilesAux, hnodup, e2]
  exact ⟨hb, by simp [uploadFiles, hb]⟩

/-- Witness for C10: two files both named `x.txt` uploaded into an empty
root create the first and report the second as a Duplicate. -/
theorem upload_intra_batch_duplicate_witness :
    uploadBatch [] none [fX, fX] ["n1", "n2"] "t1"
      = ⟨[mkFileItem "n1" none fX "t1"], [mkFileItem "n1" none fX "t1"],
         [⟨"x.txt", "DUPLICATE",
           "A file with this name already exists in this location"⟩]⟩
    ∧ (uploadFiles [] none [fX, fX] ["n1", "n2"] "t1").fst
        = .multiStatus [mkFileItem "n1" none fX "t1"]
            [⟨"x.txt", "DUPLICATE",
              "A file with this name already exists in this location"⟩] :=
  upload_intra_batch_duplicate [] none fX fX "n1" "n2" "t1" rfl (by decide)

/-! ## C6 — PATCH name rules -/

/-- Root folder named `X`, sibling of `fileY`. -/
def fldNamedX : Item :=
  { id := "A2", parentId := none, name := "X", folder := true,
    creation := "t0", modification := "t0" }

/-- Root file named `y`. -/
def fileY : Item :=
  { id := "B2", parentId := none, name := "y", folder := false,
    filePath := some "b3", size := some 1, mimeType := some "text/plain",
    creation := "t0", modification := "t0" }

/-- Store with a folder `X` and a file `y` side by side at the root. -/
def kindStore : List Item := [fileY, fldNamedX]

/-- C6 counterexample: renaming the file `y` to `X` has no sibling of the
same name AND same kind (the only `X` is a folder), so the claim predicts
success; the handler nevertheless answers DuplicateName, because its
sibling check ignores the kind. -/
theorem rename_rejected_despite_kind_mismatch :
    (kindStore.any (fun i => i.parentId == fileY.parentId && i.name == "X"
        && i.folder == fileY.folder && !(i.id == fileY.id))) = false
    ∧ moveOrRename kindStore "B2" none (some "X") "t1" = (.duplicateName, kindStore) :=
  ⟨by decide, by decide⟩

/-- C6 (amended): an empty-after-trimming newName yields InvalidName, with
the store unchanged on a pure rename but with an accepted `parentId` of
the same call already applied; and with a non-empty name the call fails
DuplicateName exactly when a sibling under the resulting parentId (the
new parent when the call also moves the item) has the same name —
regardless of kind — excluding the item itself. -/
theorem moveOrRename_name_rules (store : List Item) (itemId : String) (item0 : Item)
    (p em nm now : String)
    (h0 : findById store itemId = some item0)
    (hp : (p == itemId) = false)
    (hex : store.any (fun i => i.id == p) = true)
    (hem : (strTrim em == "") = true)
    (hnm : (strTrim nm == "") = false) :
    moveOrRename store itemId none (some em) now = (.invalidName, store)
    ∧ moveOrRename store itemId (some (some p)) (some em) now
        = (.invalidName, setParentFirst store itemId (some p))
    ∧ ((moveOrRename store itemId none (some nm) now).fst = .duplicateName
        ↔ store.any (dupPred item0.parentId nm item0.id) = true)
    ∧ ((moveOrRename store itemId (some (some p)) (some nm) now).fst = .duplicateName
        ↔ (setParentFirst store itemId (some p)).any (dupPred (some p) nm item0.id) = true) := by
  refine ⟨?_, ?_, ?_, ?_⟩
  · simp [moveOrRename, h0, renamePhase, hem]
  · simp [moveOrRename, h0, hp, hex, renamePhase, hem]
  · cases hd : store.any (dupPred item0.parentId nm item0.id) with
    | true => simp [moveOrRename, h0, renamePhase, hnm, hd]
    | false => simp [moveOrRename, h0, renamePhase, hnm, hd, finishPatch]
  · cases hd : (setParentFirst store itemId (some p)).any (dupPred (some p) nm item0.id) with
    | true => simp [moveOrRename, h0, hp, hex, renamePhase, hnm, hd]
    | false => simp [moveOrRename, h0, hp, hex, renamePhase, hnm, hd, finishPatch]

/-- Witness for the amended C6 on the concrete `kindStore`. -/
theorem moveOrRename_name_rules_witness :
    moveOrRename kindStore "B2" none (some "  ") "t1" = (.invalidName, kindStore)
    ∧ moveOrRename kindStore "B2" (some (some "A2")) (some "  ") "t1"
        = (.invalidName, setParentFirst kindStore "B2" (some "A2"))
    ∧ ((moveOrRename kindStore "B2" none (some "X") "t1").fst = .duplicateName
        ↔ kindStore.any (dupPred fileY.parentId "X" fileY.id) = true)
    ∧ ((moveOrRename kindStore "B2" (some (some "A2")) (some "X") "t1").fst = .duplicateName
        ↔ (setParentFirst kindStore "B2" (some "A2")).any (dupPred (some "A2") "X" fileY.id) = true) :=
  moveOrRename_name_rules kindStore "B2" fileY "A2" "  " "X" "t1"
    (by decide) (by decide) (by decide) (by decide) (by decide)

/-! ## C7/C8 — folder creation -/

/-- C7: CreateFolder rejects a same-named sibling folder with
DuplicateFolder inserting nothing, otherwise appends exactly one new item
— a folder whose creation and modification stamps are equal — and returns
it; in particular creating "Docs" at the root twice makes the second call
fail DuplicateFolder. -/
theorem createFolder_spec (sA : List Item) (nA : String) (pA : Option String)
    (idA nowA : String) (sB : List Item) (nB : String) (pB : Option String)
    (idB nowB : String)
    (hnA : (nA == "") = false) (hdupA : sA.any (isDupFolder pA nA) = true)
    (hnB : (nB == "") = false) (hdupB : sB.any (isDupFolder pB nB) = false) :
    createEntry sA (some nA) (some true) pA idA nowA = (.duplicateFolder, sA)
    ∧ createEntry sB (some nB) (some true) pB idB nowB
        = (.created (mkFolderItem idB pB nB nowB), sB ++ [mkFolderItem idB pB nB nowB])
    ∧ (mkFolderItem idB pB nB nowB).folder = true
    ∧ (mkFolderItem idB pB nB nowB).creation = (mkFolderItem idB pB nB nowB).modification
    ∧ createEntry [] (some "Docs") (some true) none "u1" "t1"
        = (.created (mkFolderItem "u1" none "Docs" "t1"), [mkFolderItem "u1" none "Docs" "t1"])
    ∧ (createEntry [mkFolderItem "u1" none "Docs" "t1"] (some "Docs") (some true) none
        "u2" "t2").fst = .duplicateFolder := by
  refine ⟨?_, ?_, rfl, rfl, by decide, by decide⟩
  · simp [createEntry, hnA, hdupA]
  · simp [createEntry, hnB, hdupB, mkFolderItem]

/-- Witness for C7: duplicate rejection against an existing root "Docs"
folder and successful creation into an empty store. -/
theorem createFolder_spec_witness :
    createEntry [mkFolderItem "u1" none "Docs" "t1"] (some "Docs") (some true) none "u2" "t2"
        = (.duplicateFolder, [mkFolderItem "u1" none "Docs" "t1"])
    ∧ createEntry [] (some "Docs") (some true) none "u1" "t1"
        = (.created (mkFolderItem "u1" none "Docs" "t1"), [mkFolderItem "u1" none "Docs" "t1"])
    ∧ (mkFolderItem "u1" none "Docs" "t1").folder = true
    ∧ (mkFolderItem "u1" none "Docs" "t1").creation = (mkFolderItem "u1" none "Docs" "t1").modification
    ∧ createEntry [] (some "Docs") (some true) none "u1" "t1"
        = (.created (mkFolderItem "u1" none "Docs" "t1"), [mkFolderItem "u1" none "Docs" "t1"])
    ∧ (createEntry [mkFolderItem "u1" none "Docs" "t1"] (some "Docs") (some true) none
        "u2" "t2").fst = .duplicateFolder :=
  createFolder_spec [mkFolderItem "u1" none "Docs" "t1"] "Docs" none "u2" "t2"
    [] "Docs" none "u1" "t1" (by decide) (by decide) (by decide) (by decide)

/-- C8 counterexample: with an empty store — so no item at all has id
"ghost" — CreateFolder with `parentId = "ghost"` does not fail with
ParentNotFound: it succeeds and inserts the folder with the dangling
parent reference. -/
theorem createFolder_skips_parent_check_cex :
    (([] : List Item).any (fun i => i.id == "ghost")) = false
    ∧ createEntry [] (some "A") (some true) (some "ghost") "u1" "t0"
        = (.created (mkFolderItem "u1" (some "ghost") "A" "t0"),
           [mkFolderItem "u1" (some "ghost") "A" "t0"]) :=
  ⟨rfl, by decide⟩

/-- C8 (amended): CreateFolder performs no parentId validation: even when
no existing item has the given non-null parentId, the call (with a valid
name and no duplicate sibling folder) succeeds and inserts the item with
the dangling parent reference. -/
theorem createFolder_no_parent_validation (store : List Item) (n p newId now : String)
    (hn : (n == "") = false)
    (hghost : store.any (fun i => i.id == p) = false)
    (hdup : store.any (isDupFolder (some p) n) = false) :
    createEntry store (some n) (some true) (some p) newId now
      = (.created (mkFolderItem newId (some p) n now),
         store ++ [mkFolderItem newId (some p) n now]) := by
  simp [createEntry, hn, hdup, mkFolderItem]

/-- Witness for the amended C8 at the concrete ghost parent. -/
theorem createFolder_no_parent_validation_witness :
    createEntry [] (some "A") (some true) (some "ghost") "u1" "t0"
      = (.created (mkFolderItem "u1" (some "ghost") "A" "t0"),
         [mkFolderItem "u1" (some "ghost") "A" "t0"]) :=
  createFolder_no_parent_validation [] "A" "ghost" "u1" "t0"
    (by decide) (by decide) (by decide)

/-! ## C9 — GetPath order and round-trip -/

/-- The bottom-up walk is the reverse of the handler's unshift-built list,
at every fuel. -/
theorem pathWalk_eq_upWalk_reverse (store : List Item) :
    ∀ (fuel : Nat) (it : Item),
      pathWalk store fuel it = (upWalk store fuel it).map List.reverse := by
  intro fuel
  induction fuel with
  | zero => intro it; rfl
  | succ n ih =>
    intro it
    cases hpar : it.parentId with
    | none => simp [pathWalk, upWalk, hpar]
    | some pid =>
      cases hf : findById store pid with
      | none => simp [pathWalk, upWalk, hpar, hf]
      | some par =>
        cases hw : upWalk store n par with
        | none => simp [pathWalk, upWalk, hpar, hf, ih par, hw]
        | some l => simp [pathWalk, upWalk, hpar, hf, ih par, hw]

/-- A completed bottom-up walk starts at the item it was started from. -/
theorem upWalk_head (store : List Item) (fuel : Nat) (it : Item) (l : List Item)
    (h : upWalk store fuel it = some l) : l.head? = some it := by
  cases fuel with
  | zero => exact absurd h (by simp [upWalk])
  | succ n =>
    cases hpar : it.parentId with
    | none =>
      simp [upWalk, hpar] at h
      rw [← h]
      rfl
    | some pid =>
      cases hf : findById store pid with
      | none =>
        simp [upWalk, hpar, hf] at h
        rw [← h]
        rfl
      | some par =>
        simp [upWalk, hpar, hf] at h
        obtain ⟨l2, hl2, hcons⟩ := h
        rw [← hcons]
        rfl

/-- The last element of a reversed list is the head of the original. -/
theorem getLast?_rev (l : List Item) : l.reverse.getLast? = l.head? := by
  cases l with
  | nil => rfl
  | cons a t => simp

/-- Root folder of the concrete 4-deep chain. -/
def fldR : Item :=
  { id := "r", parentId := none, name := "root", folder := true,
    creation := "t0", modification := "t0" }

/-- First nested folder of the chain. -/
def fldP1 : Item :=
  { id := "p1", parentId := some "r", name := "p1", folder := true,
    creation := "t0", modification := "t0" }

/-- Second nested folder of the chain. -/
def fldP2 : Item :=
  { id := "p2", parentId := some "p1", name := "p2", folder := true,
    creation := "t0", modification := "t0" }

/-- File nested under three folders. -/
def fileLeaf : Item :=
  { id := "x9", parentId := some "p2", name := "leaf.txt", folder := false,
    filePath := some "b9", size := some 9, mimeType := some "text/plain",
    creation := "t0", modification := "t0" }

/-- Store holding the chain root ← p1 ← p2 ← leaf. -/
def chain4 : List Item := [fldR, fldP1, fldP2, fileLeaf]

/-- C9: on a store whose parent chain from X terminates within the
item-count bound (acyclic store), GetPath answers with exactly the
reverse of the bottom-up `parentId` walk from X — root first, X itself
last — and an item nested under 3 folders yields a list of length 4. -/
theorem getPath_roundtrip (store : List Item) (xid : String) (x : Item) (u : List Item)
    (hx : findById store xid = some x)
    (hup : upWalk store store.length x = some u) :
    getPathFuel store xid store.length = some (.ok u.reverse)
    ∧ pathWalk store store.length x = some u.reverse
    ∧ u.reverse.getLast? = some x
    ∧ u.head? = some x
    ∧ getPathFuel chain4 "x9" chain4.length
        = some (.ok [fldR, fldP1, fldP2, fileLeaf])
    ∧ ([fldR, fldP1, fldP2, fileLeaf] : List Item).length = 4 := by
  have hpw : pathWalk store store.length x = some u.reverse := by
    rw [pathWalk_eq_upWalk_reverse store store.length x, hup]
    rfl
  refine ⟨?_, hpw, ?_, upWalk_head store store.length x u hup, by decide, rfl⟩
  · simp [getPathFuel, hx, hpw]
  · rw [getLast?_rev]
    exact upWalk_head store store.length x u hup

/-- Witness for C9 on the concrete 4-deep chain. -/
theorem getPath_roundtrip_witness :
    getPathFuel chain4 "x9" chain4.length
        = some (.ok ([fileLeaf, fldP2, fldP1, fldR] : List Item).reverse)
    ∧ pathWalk chain4 chain4.length fileLeaf
        = some ([fileLeaf, fldP2, fldP1, fldR] : List Item).reverse
    ∧ ([fileLeaf, fldP2, fldP1, fldR] : List Item).reverse.getLast? = some fileLeaf
    ∧ ([fileLeaf, fldP2, fldP1, fldR] : List Item).head? = some fileLeaf
    ∧ getPathFuel chain4 "x9" chain4.length
        = some (.ok [fldR, fldP1, fldP2, fileLeaf])
    ∧ ([fldR, fldP1, fldP2, fileLeaf] : List Item).length = 4 :=
  getPath_roundtrip chain4 "x9" fileLeaf [fileLeaf, fldP2, fldP1, fldR]
    (by decide) (by decide)

end FileTree
